import Mathlib

/-!
Verification of the `fourth` datetime library (LincolnPuzey/Fourth).

The library wraps Python's `datetime.datetime` in two types:
`LocalDatetime` (naive, `tzinfo=None`) and `UTCDatetime` (aware,
`tzinfo=timezone.utc`).  This file shallowly embeds the wrapper types and
their operations from `src/fourth/types.py`.  The host platform's
`datetime.datetime` value is embedded as a record of calendar fields plus an
optional fixed UTC offset in minutes; the host's calendar arithmetic
(`astimezone`, `datetime + timedelta`, `fromisoformat`, `isoformat`) is
modelled by explicit proleptic-Gregorian day-number conversions.
-/

namespace Fourth

/-- Day number (days since 1970-01-01) of a proleptic-Gregorian date.
Models the calendar arithmetic of Python's `datetime.date.toordinal`
(shifted so that 1970-01-01 is day 0), via era decomposition. -/
def daysFromCivil (y m d : Int) : Int :=
  let yy : Int := y - (if m ≤ 2 then 1 else 0)
  let era : Int := yy / 400
  let yoe : Int := yy - era * 400
  let mp : Int := if m > 2 then m - 3 else m + 9
  let doy : Int := (153 * mp + 2) / 5 + d - 1
  let doe : Int := yoe * 365 + yoe / 4 - yoe / 100 + doy
  era * 146097 + doe - 719468

/-- Proleptic-Gregorian date (year, month, day) of a day number (inverse of
`daysFromCivil`); models `datetime.date.fromordinal`.  The year of era is
found by a guess from `doe / 366` corrected by at most one. -/
def civilFromDays (z : Int) : Int × Int × Int :=
  let a : Int := z + 719468
  let era : Int := a / 146097
  let doe : Int := a % 146097
  let y0 : Int := doe / 366
  let yoe : Int :=
    if 365 * (y0 + 1) + (y0 + 1) / 4 - (y0 + 1) / 100 + (y0 + 1) / 400 ≤ doe
    then y0 + 1 else y0
  let doy : Int := doe - (365 * yoe + yoe / 4 - yoe / 100)
  let mp : Int := (5 * doy + 2) / 153
  let d : Int := doy - (153 * mp + 2) / 5 + 1
  let m : Int := mp + (if mp < 10 then 3 else -9)
  (yoe + era * 400 + (if m ≤ 2 then 1 else 0), m, d)

theorem daysFromCivil_civilFromDays (z : Int) :
    daysFromCivil (civilFromDays z).1 (civilFromDays z).2.1 (civilFromDays z).2.2 = z := by
  dsimp only [civilFromDays, daysFromCivil]
  generalize hA : z + 719468 = A
  generalize hera : A / 146097 = era
  generalize hdoe : A % 146097 = doe
  generalize hy0 : doe / 366 = y0
  have hy0B : 0 ≤ y0 ∧ y0 ≤ 399 := by omega
  by_cases hbump : 365 * (y0 + 1) + (y0 + 1) / 4 - (y0 + 1) / 100 + (y0 + 1) / 400 ≤ doe
  · simp only [if_pos hbump]
    have hyB : y0 + 1 ≤ 399 := by omega
    generalize hdoy : doe - (365 * (y0 + 1) + (y0 + 1) / 4 - (y0 + 1) / 100) = doy
    have hdoyB : 0 ≤ doy ∧ doy ≤ 366 := by omega
    clear hbump
    generalize hmp : (5 * doy + 2) / 153 = mp
    have hmpB : 0 ≤ mp ∧ mp ≤ 11 := by omega
    clear hmp hy0
    simp only [add_sub_cancel_right]
    have he2 : (y0 + 1 + era * 400) / 400 = era := by omega
    rw [he2]
    simp only [add_sub_cancel_right]
    split_ifs <;> omega
  · simp only [if_neg hbump]
    generalize hdoy : doe - (365 * y0 + y0 / 4 - y0 / 100) = doy
    have hdoyB : 0 ≤ doy ∧ doy ≤ 366 := by omega
    clear hbump
    generalize hmp : (5 * doy + 2) / 153 = mp
    have hmpB : 0 ≤ mp ∧ mp ≤ 11 := by omega
    clear hmp hy0
    simp only [add_sub_cancel_right]
    have he2 : (y0 + era * 400) / 400 = era := by omega
    rw [he2]
    simp only [add_sub_cancel_right]
    split_ifs <;> omega

/-- Component bounds of `civilFromDays`: the month and day are always
positive, and the year is nonnegative as soon as the day number is not
before year 0. -/
theorem civilFromDays_bounds (z : Int) (hz : -719468 ≤ z) :
    0 ≤ (civilFromDays z).1 ∧ 0 ≤ (civilFromDays z).2.1 ∧ 0 ≤ (civilFromDays z).2.2 := by
  dsimp only [civilFromDays]
  generalize hA : z + 719468 = A
  generalize hera : A / 146097 = era
  generalize hdoe : A % 146097 = doe
  generalize hy0 : doe / 366 = y0
  have hy0B : 0 ≤ y0 ∧ y0 ≤ 399 := by omega
  have heraB : 0 ≤ era := by omega
  by_cases hbump : 365 * (y0 + 1) + (y0 + 1) / 4 - (y0 + 1) / 100 + (y0 + 1) / 400 ≤ doe
  · simp only [if_pos hbump]
    generalize hdoy : doe - (365 * (y0 + 1) + (y0 + 1) / 4 - (y0 + 1) / 100) = doy
    have hdoyB : 0 ≤ doy ∧ doy ≤ 366 := by omega
    clear hbump
    generalize hmp : (5 * doy + 2) / 153 = mp
    have hmpB : 0 ≤ mp ∧ mp ≤ 11 := by omega
    split_ifs <;> omega
  · simp only [if_neg hbump]
    generalize hdoy : doe - (365 * y0 + y0 / 4 - y0 / 100) = doy
    have hdoyB : 0 ≤ doy ∧ doy ≤ 366 := by omega
    clear hbump
    generalize hmp : (5 * doy + 2) / 153 = mp
    have hmpB : 0 ≤ mp ∧ mp ≤ 11 := by omega
    split_ifs <;> omega

/-- Embedding of a Python `datetime.datetime` value: the calendar fields,
plus the fixed UTC offset of its `tzinfo` in minutes (`none` when naive). -/
structure PyDatetime where
  year : Nat
  month : Nat
  day : Nat
  hour : Nat
  minute : Nat
  second : Nat
  microsecond : Nat
  tzinfo : Option Int
deriving DecidableEq, Repr

/-- Gregorian leap-year test, as used by `datetime`. -/
def isLeapYear (y : Nat) : Bool :=
  y % 4 == 0 && (y % 100 != 0 || y % 400 == 0)

/-- Number of days in a month, as validated by the `datetime` constructor. -/
def daysInMonth (y m : Nat) : Nat :=
  match m with
  | 1 => 31 | 2 => if isLeapYear y then 29 else 28 | 3 => 31 | 4 => 30
  | 5 => 31 | 6 => 30 | 7 => 31 | 8 => 31 | 9 => 30 | 10 => 31
  | 11 => 30 | 12 => 31 | _ => 0

/-- Field validation performed by the `datetime.datetime` constructor
(MINYEAR = 1, MAXYEAR = 9999; a `timezone` offset is strictly between
-24 h and +24 h). -/
def isValid (dt : PyDatetime) : Bool :=
  1 ≤ dt.year && dt.year ≤ 9999 &&
  1 ≤ dt.month && dt.month ≤ 12 &&
  1 ≤ dt.day && dt.day ≤ daysInMonth dt.year dt.month &&
  dt.hour ≤ 23 && dt.minute ≤ 59 && dt.second ≤ 59 && dt.microsecond ≤ 999999 &&
  (match dt.tzinfo with
   | none => true
   | some off => -1439 ≤ off && off ≤ 1439)

/-- Microseconds since 1970-01-01T00:00:00 of the wall-clock reading of a
datetime (the offset, if any, is ignored). -/
def toWallMicros (dt : PyDatetime) : Int :=
  daysFromCivil dt.year dt.month dt.day * 86400000000 +
    ((dt.hour : Int) * 3600000000 + (dt.minute : Int) * 60000000 +
     (dt.second : Int) * 1000000 + (dt.microsecond : Int))

/-- The instant denoted by an aware datetime, in microseconds since the epoch
(UTC): wall-clock micros minus the offset.  For a naive value this coincides
with the wall-clock reading. -/
def instantMicros (dt : PyDatetime) : Int :=
  toWallMicros dt - (dt.tzinfo.getD 0) * 60000000

/-- Datetime whose wall-clock reading is `x` microseconds since the epoch,
carrying `tz` as its tzinfo. -/
def fromWallMicros (x : Int) (tz : Option Int) : PyDatetime :=
  let days := x / 86400000000
  let tod := (x % 86400000000).toNat
  let c := civilFromDays days
  { year := c.1.toNat, month := c.2.1.toNat, day := c.2.2.toNat,
    hour := tod / 3600000000, minute := tod / 60000000 % 60,
    second := tod / 1000000 % 60, microsecond := tod % 1000000,
    tzinfo := tz }

theorem fromWallMicros_tzinfo (x : Int) (tz : Option Int) :
    (fromWallMicros x tz).tzinfo = tz := rfl

/-- Lower bound of the wall-clock micros of any representable datetime:
0001-01-01T00:00:00 is `-719162 * 86400000000`. -/
def minWallMicros : Int := -62135596800000000

/-- `fromWallMicros` is a right inverse of `toWallMicros` on every instant at
or after year 1. -/
theorem toWallMicros_fromWallMicros (x : Int) (tz : Option Int)
    (hx : minWallMicros ≤ x) :
    toWallMicros (fromWallMicros x tz) = x := by
  unfold toWallMicros fromWallMicros
  dsimp only
  have hdays : -719468 ≤ x / 86400000000 := by
    unfold minWallMicros at hx
    omega
  obtain ⟨h1, h2, h3⟩ := civilFromDays_bounds (x / 86400000000) hdays
  have htod : 0 ≤ x % 86400000000 := by omega
  rw [Int.toNat_of_nonneg h1, Int.toNat_of_nonneg h2, Int.toNat_of_nonneg h3]
  rw [daysFromCivil_civilFromDays]
  push_cast
  rw [Int.toNat_of_nonneg htod]
  omega

/-- The values a Fourth datetime can be compared with or added to:
instances of the two wrapper classes, native `datetime.datetime` values,
`timedelta` values (in microseconds), and unrelated types (int, str). -/
inductive PyValue where
  | localDT (dt : PyDatetime)
  | utcDT (dt : PyDatetime)
  | native (dt : PyDatetime)
  | timedelta (microseconds : Int)
  | int (n : Int)
  | str (s : String)
deriving DecidableEq, Repr

/-- The possible results of a Python `__eq__` method: a boolean, or the
`NotImplemented` sentinel that defers to the other operand. -/
inductive EqResult where
  | bool (b : Bool)
  | notImplemented
deriving DecidableEq, Repr

/-- Python's `datetime.__eq__` between two datetimes: naive values compare by
fields, aware values compare by instant, and a naive/aware mix is unequal. -/
def datetimeEq (a b : PyDatetime) : Bool :=
  match a.tzinfo, b.tzinfo with
  | none, none => a == b
  | some _, some _ => instantMicros a == instantMicros b
  | _, _ => false

/-- Python's `dt.astimezone(timezone.utc)` on an aware datetime: when the
offset is already zero the same wall clock is kept (CPython returns values
with identical fields); otherwise the wall clock is moved to the instant's
UTC reading.  Never called on naive values by this library (guarded by
`UTCDatetime.__init__`); on a naive value we keep it unchanged. -/
def astimezoneUtc (dt : PyDatetime) : PyDatetime :=
  match dt.tzinfo with
  | none => dt
  | some off =>
    if off = 0 then dt
    else fromWallMicros (toWallMicros dt - off * 60000000) (some 0)

/-- The `datetime.datetime(...)` constructor: validates the fields and
builds the value, raising `ValueError` otherwise. -/
def mkDatetime (year month day hour minute second microsecond : Nat)
    (tz : Option Int) : Except String PyDatetime :=
  let dt : PyDatetime := ⟨year, month, day, hour, minute, second, microsecond, tz⟩
  if isValid dt then .ok dt else .error "ValueError: field value out of range"

/-- `BaseDatetime.as_datetime` (types.py lines 121-128): returns the wrapped
`_at` datetime.  In this embedding a wrapper instance is identified with its
`_at` value, so this is the identity. -/
def as_datetime (self : PyDatetime) : PyDatetime := self

/-- `BaseDatetime.__setattr__` (types.py lines 49-59): unconditionally raises
`AttributeError` naming the runtime class and the attribute; no state is ever
modified (an `.ok` result would carry the updated instance, and is never
produced). -/
def BaseDatetime.setattr (className : String) (self : PyDatetime)
    (name : String) (_value : PyValue) : Except String PyDatetime :=
  .error ("'" ++ className ++ "' object has no attribute '" ++ name ++ "'")

/-- `BaseDatetime.__delattr__` (types.py lines 61-70): unconditionally raises
the same `AttributeError`. -/
def BaseDatetime.delattr (className : String) (self : PyDatetime)
    (name : String) : Except String PyDatetime :=
  .error ("'" ++ className ++ "' object has no attribute '" ++ name ++ "'")

/-- Modelled from the spec: `BaseDatetime.at` — the abstract constructor hook
is absent from the snapshot under src/ (only the tests call it, expecting
`NotImplementedError("BaseDatetime does not implement at()")`); the spec
says calling `at(...)` on the base fails with a "not implemented" error
naming the operation, for every argument tuple. -/
def BaseDatetime.atHook (year month day hour minute second microsecond : Nat) :
    Except String PyDatetime :=
  .error "NotImplementedError: BaseDatetime does not implement at()"

/-- `LocalDatetime.__init__` (types.py lines 164-170): rejects aware
datetimes, stores the value unchanged. -/
def LocalDatetime.init (at' : PyDatetime) : Except String PyDatetime :=
  if at'.tzinfo.isSome then
    .error "LocalDatetime can't be initialised with an aware datetime"
  else .ok at'

/-- `LocalDatetime.__eq__` (types.py lines 172-185): equal to LocalDatetime
instances and to naive native datetimes with the same value; `False` for
everything else (including aware datetimes, UTCDatetime and unrelated
types — the final branch is `return False`, not `NotImplemented`). -/
def LocalDatetime.eq (self : PyDatetime) (other : PyValue) : EqResult :=
  match other with
  | .localDT o => .bool (datetimeEq o self)
  | .native o => .bool (o.tzinfo.isNone && datetimeEq o self)
  | _ => .bool false

/-- `LocalDatetime.at` (types.py lines 189-211): builds a naive datetime from
the fields. -/
def LocalDatetime.atC (year month day : Nat) (hour : Nat := 0)
    (minute : Nat := 0) (second : Nat := 0) (microsecond : Nat := 0) :
    Except String PyDatetime := do
  let dtm ← mkDatetime year month day hour minute second microsecond none
  LocalDatetime.init dtm

/-- `UTCDatetime.__init__` (types.py lines 254-262): rejects naive datetimes,
converts any other fixed offset to UTC with `astimezone(timezone.utc)`,
stores the result. -/
def UTCDatetime.init (at' : PyDatetime) : Except String PyDatetime :=
  if at'.tzinfo.isNone then
    .error "UTCDatetime can't be initialised with a naive datetime"
  else .ok (astimezoneUtc at')

/-- `UTCDatetime.__eq__` (types.py lines 264-270): equal to UTCDatetime
instances and to aware native datetimes denoting the same instant; `False`
for everything else (the final branch is `return False`). -/
def UTCDatetime.eq (self : PyDatetime) (other : PyValue) : EqResult :=
  match other with
  | .utcDT o => .bool (datetimeEq o self)
  | .native o => .bool (o.tzinfo.isSome && datetimeEq o self)
  | _ => .bool false

/-- `UTCDatetime.at` (types.py lines 274-297): builds a datetime with
`tzinfo=timezone.utc` from the fields and passes it to `__init__`. -/
def UTCDatetime.atC (year month day : Nat) (hour : Nat := 0)
    (minute : Nat := 0) (second : Nat := 0) (microsecond : Nat := 0) :
    Except String PyDatetime := do
  let dtm ← mkDatetime year month day hour minute second microsecond (some 0)
  UTCDatetime.init dtm

/-- The decimal digit character of a value below ten (codepoint 48 is `0`). -/
def digitChar (n : Nat) : Char := Char.ofNat (48 + n % 10)

/-- Zero-padded fixed-width decimal rendering (most significant first). -/
def padDigits : Nat → Nat → List Char
  | 0, _ => []
  | w + 1, v => digitChar (v / 10 ^ w % 10) :: padDigits w v

/-- The `±HH:MM` suffix `datetime.isoformat` appends for a fixed-offset
tzinfo (empty for a naive value). -/
def offsetSuffix : Option Int → List Char
  | none => []
  | some off =>
    (if off < 0 then '-' else '+') ::
      (padDigits 2 (off.natAbs / 60) ++ ':' :: padDigits 2 (off.natAbs % 60))

/-- `BaseDatetime.iso_format` (types.py lines 130-143) at its default
arguments `sep="T"`, `timespec="microseconds"` (also `__str__`, line 87):
renders `YYYY-MM-DDTHH:MM:SS.ffffff` plus the offset suffix, delegating to
`datetime.isoformat`. -/
def isoFormatList (dt : PyDatetime) : List Char :=
  padDigits 4 dt.year ++ '-' ::
    (padDigits 2 dt.month ++ '-' ::
      (padDigits 2 dt.day ++ 'T' ::
        (padDigits 2 dt.hour ++ ':' ::
          (padDigits 2 dt.minute ++ ':' ::
            (padDigits 2 dt.second ++ '.' ::
              (padDigits 6 dt.microsecond ++ offsetSuffix dt.tzinfo))))))

/-- String form of `iso_format` with the default separator and timespec. -/
def iso_format (dt : PyDatetime) : String := ⟨isoFormatList dt⟩

/-- Value of a decimal digit character, `none` for any other character. -/
def digit? (c : Char) : Option Nat :=
  if 48 ≤ c.toNat ∧ c.toNat ≤ 57 then some (c.toNat - 48) else none

/-- Consume exactly `w` digit characters, extending the accumulator. -/
def parseNatFixed : Nat → Nat → List Char → Option (Nat × List Char)
  | 0, acc, cs => some (acc, cs)
  | w + 1, acc, c :: cs =>
    match digit? c with
    | some d => parseNatFixed w (acc * 10 + d) cs
    | none => none
  | _ + 1, _, [] => none

/-- Consume one expected character. -/
def expectChar (c : Char) : List Char → Option (List Char)
  | x :: xs => if x = c then some xs else none
  | [] => none

/-- Fractional-second part of `datetime.fromisoformat`'s grammar: absent, or
`.` followed by exactly 3 or 6 digits. -/
def parseFraction : List Char → Option (Nat × List Char)
  | '.' :: cs =>
    match parseNatFixed 6 0 cs with
    | some (us, cs') => some (us, cs')
    | none =>
      match parseNatFixed 3 0 cs with
      | some (ms, cs') => some (ms * 1000, cs')
      | none => none
  | cs => some (0, cs)

/-- Trailing offset of `datetime.fromisoformat`'s grammar: nothing, or
`±HH:MM` (the offset must denote a `timezone`, i.e. be strictly between
-24 h and +24 h; an offset with seconds precision is out of the modelled
grammar).  Returns the offset in minutes. -/
def parseOffset : List Char → Option (Option Int)
  | [] => some none
  | '+' :: cs => do
    let (h, cs) ← parseNatFixed 2 0 cs
    let cs ← expectChar ':' cs
    let (m, cs) ← parseNatFixed 2 0 cs
    match cs with
    | [] => if m ≤ 59 && h * 60 + m < 1440 then some (some ((h : Int) * 60 + m)) else none
    | _ => none
  | '-' :: cs => do
    let (h, cs) ← parseNatFixed 2 0 cs
    let cs ← expectChar ':' cs
    let (m, cs) ← parseNatFixed 2 0 cs
    match cs with
    | [] => if m ≤ 59 && h * 60 + m < 1440 then some (some (-((h : Int) * 60 + m))) else none
    | _ => none
  | _ => none

/-- Time-of-day part of `datetime.fromisoformat`'s grammar:
`HH[:MM[:SS[.fff[fff]]]]`. -/
def parseTimeTail (cs : List Char) : Option (Nat × Nat × Nat × Nat × List Char) := do
  let (h, cs) ← parseNatFixed 2 0 cs
  match cs with
  | ':' :: cs2 => do
    let (mi, cs3) ← parseNatFixed 2 0 cs2
    match cs3 with
    | ':' :: cs4 => do
      let (s, cs5) ← parseNatFixed 2 0 cs4
      let (us, cs6) ← parseFraction cs5
      some (h, mi, s, us, cs6)
    | _ => some (h, mi, 0, 0, cs3)
  | _ => some (h, 0, 0, 0, cs)

/-- Python's `datetime.fromisoformat` (the host-platform parser used by both
`from_iso_format` constructors) on a character list: `YYYY-MM-DD`,
optionally followed by any one-character separator, a time of day and a
fixed offset; the resulting fields are validated like the `datetime`
constructor.  Returns `none` where Python raises `ValueError` for a
malformed string. -/
def parseIsoList (cs : List Char) : Option PyDatetime := do
  let (y, cs) ← parseNatFixed 4 0 cs
  let cs ← expectChar '-' cs
  let (mo, cs) ← parseNatFixed 2 0 cs
  let cs ← expectChar '-' cs
  let (d, cs) ← parseNatFixed 2 0 cs
  match cs with
  | [] =>
    let dt : PyDatetime := ⟨y, mo, d, 0, 0, 0, 0, none⟩
    if isValid dt then some dt else none
  | _sep :: cs => do
    let (h, mi, sec, us, cs) ← parseTimeTail cs
    let tz ← parseOffset cs
    let dt : PyDatetime := ⟨y, mo, d, h, mi, sec, us, tz⟩
    if isValid dt then some dt else none

/-- `datetime.fromisoformat` on a string: parse its character data. -/
def fromisoformat (s : String) : Option PyDatetime := parseIsoList s.data

/-- `LocalDatetime.from_iso_format` (types.py lines 217-222): parse, reject
a result that carries tz info, wrap. -/
def LocalDatetime.from_iso_format (s : String) : Except String PyDatetime :=
  match fromisoformat s with
  | none => .error "ValueError: invalid isoformat string"
  | some dtm =>
    if dtm.tzinfo.isSome then .error "fromisoformat: date_string contained tz info"
    else LocalDatetime.init dtm

/-- `LocalDatetime.strptime` (types.py lines 224-229) with the host
`datetime.strptime` abstracted by its parse result `dtm`: reject a result
that carries tz info, wrap. -/
def LocalDatetime.strptimeCheck (dtm : PyDatetime) : Except String PyDatetime :=
  if dtm.tzinfo.isSome then .error "strptime: date_string contained tz info"
  else LocalDatetime.init dtm

/-- `UTCDatetime.from_iso_format` (types.py lines 307-314): parse, reject a
result that carries no tz info, wrap (normalizing the offset to UTC). -/
def UTCDatetime.from_iso_format (s : String) : Except String PyDatetime :=
  match fromisoformat s with
  | none => .error "ValueError: invalid isoformat string"
  | some dtm =>
    if dtm.tzinfo.isNone then .error "fromisoformat: date_string didn't contain tz info"
    else UTCDatetime.init dtm

/-- `UTCDatetime.strptime` (types.py lines 316-321) with the host
`datetime.strptime` abstracted by its parse result `dtm`: reject a result
that carries no tz info, wrap. -/
def UTCDatetime.strptimeCheck (dtm : PyDatetime) : Except String PyDatetime :=
  if dtm.tzinfo.isNone then .error "strptime: date_string didn't contain tz info"
  else UTCDatetime.init dtm

/-- Model of Python's `hash` on a `datetime.datetime`: naive values hash on
their wall-clock reading, aware values on their instant, so that datetimes
comparing equal hash identically (the concrete integer CPython produces is
abstracted; only this consistency law is observable in the spec). -/
def pyDatetimeHash (dt : PyDatetime) : Int :=
  match dt.tzinfo with
  | none => toWallMicros dt
  | some _ => instantMicros dt

/-- Modelled from the spec: `__hash__` is absent from the snapshot under
src/ (only the tests use it, pinning `hash(self) == hash(self._at)`); the
spec requires hashing to be consistent with equality, including between a
wrapped value and its native-datetime equivalent.  A wrapper instance hashes
as its wrapped `_at` datetime. -/
def wrapperHash (self : PyDatetime) : Int := pyDatetimeHash self

/-- Hash of any comparison operand: wrapped and native datetimes hash as the
datetime they denote; for unrelated types any value serves (they never
compare equal to a datetime). -/
def pyValueHash : PyValue → Int
  | .localDT dt => pyDatetimeHash dt
  | .utcDT dt => pyDatetimeHash dt
  | .native dt => pyDatetimeHash dt
  | .timedelta u => u
  | .int n => n
  | .str _ => 0

/-- The possible results of Python's `__add__`/`__radd__`: `NotImplemented`
for an unsupported operand, or a new value. -/
inductive AddResult where
  | notImplemented
  | value (dt : PyDatetime)
deriving DecidableEq, Repr

/-- `datetime + timedelta` of the host platform: shift the wall clock by the
duration, keep the tzinfo. -/
def addDuration (dt : PyDatetime) (usec : Int) : PyDatetime :=
  fromWallMicros (toWallMicros dt + usec) dt.tzinfo

/-- Modelled from the spec: `LocalDatetime.__add__` is absent from the
snapshot under src/ (only the tests call it); the spec says adding a
duration returns a new NaiveDatetime shifted by that duration, and any other
operand is "not comparable" (NotImplemented). -/
def LocalDatetime.add (self : PyDatetime) (other : PyValue) : AddResult :=
  match other with
  | .timedelta u => .value (addDuration self u)
  | _ => .notImplemented

/-- Modelled from the spec: `LocalDatetime.__radd__` — addition is
commutative, so `duration + value` performs the same shift. -/
def LocalDatetime.radd (self : PyDatetime) (other : PyValue) : AddResult :=
  LocalDatetime.add self other

/-- Modelled from the spec: `UTCDatetime.__add__`, as for the naive variant
but producing a UTC value. -/
def UTCDatetime.add (self : PyDatetime) (other : PyValue) : AddResult :=
  match other with
  | .timedelta u => .value (addDuration self u)
  | _ => .notImplemented

/-- Modelled from the spec: `UTCDatetime.__radd__` — commutative addition. -/
def UTCDatetime.radd (self : PyDatetime) (other : PyValue) : AddResult :=
  UTCDatetime.add self other

/-- Modelled from the spec: the timezone-directive scan of
`LocalDatetime.strftime` — a format string contains a live timezone
directive when a `z` or `Z` is preceded by an odd-length run of `%`
characters (the directive's own `%` plus an even number of escapes).  `run`
counts the `%` characters read immediately before the current position. -/
def hasTzDirective : List Char → Nat → Bool
  | [], _ => false
  | '%' :: cs, run => hasTzDirective cs (run + 1)
  | c :: cs, run =>
    if (c == 'z' || c == 'Z') && run % 2 == 1 then true
    else hasTzDirective cs 0

/-- Rendering of the strftime directives this library's tests exercise
(`%Y %m %d %H %M %S %z %Z`, with `%%` as a literal percent); directive
semantics are the host platform's. -/
def strftimeRender (dt : PyDatetime) : List Char → List Char
  | '%' :: '%' :: cs => '%' :: strftimeRender dt cs
  | '%' :: 'Y' :: cs => padDigits 4 dt.year ++ strftimeRender dt cs
  | '%' :: 'm' :: cs => padDigits 2 dt.month ++ strftimeRender dt cs
  | '%' :: 'd' :: cs => padDigits 2 dt.day ++ strftimeRender dt cs
  | '%' :: 'H' :: cs => padDigits 2 dt.hour ++ strftimeRender dt cs
  | '%' :: 'M' :: cs => padDigits 2 dt.minute ++ strftimeRender dt cs
  | '%' :: 'S' :: cs => padDigits 2 dt.second ++ strftimeRender dt cs
  | '%' :: 'z' :: cs =>
    (match dt.tzinfo with
     | none => []
     | some off =>
       (if off < 0 then '-' else '+') ::
         (padDigits 2 (off.natAbs / 60) ++ padDigits 2 (off.natAbs % 60))) ++
      strftimeRender dt cs
  | '%' :: 'Z' :: cs =>
    (match dt.tzinfo with
     | none => []
     | some off => if off = 0 then ['U', 'T', 'C'] else 'U' :: 'T' :: 'C' :: offsetSuffix (some off)) ++
      strftimeRender dt cs
  | c :: cs => c :: strftimeRender dt cs
  | [] => []

/-- Modelled from the spec: `LocalDatetime.strftime` is absent from the
snapshot under src/ (only the tests call it); the spec says it fails with an
error when the format string contains an unescaped `%z`/`%Z` directive
(one not preceded by an odd number of `%` escape characters), and otherwise
renders the format. -/
def LocalDatetime.strftime (self : PyDatetime) (formatString : String) :
    Except String String :=
  if hasTzDirective formatString.data 0 then
    .error "format string for LocalDatetime.strftime() must not contain timezone directives"
  else .ok ⟨strftimeRender self formatString.data⟩

theorem digit?_digitChar (r : Nat) (h : r < 10) : digit? (digitChar r) = some r := by
  have key : ∀ r, r < 10 → digit? (digitChar r) = some r := by decide
  exact key r h

/-- A fixed-width rendering parses back to the rendered value (modulo the
width), leaving the rest of the input untouched. -/
theorem parseNatFixed_padDigits (w : Nat) : ∀ (acc v : Nat) (rest : List Char),
    parseNatFixed w acc (padDigits w v ++ rest) =
      some (acc * 10 ^ w + v % 10 ^ w, rest) := by
  induction w with
  | zero =>
    intro acc v rest
    simp [parseNatFixed, padDigits, Nat.mod_one]
  | succ w ih =>
    intro acc v rest
    rw [padDigits, List.cons_append]
    have hlt : v / 10 ^ w % 10 < 10 := Nat.mod_lt _ (by norm_num)
    simp only [parseNatFixed, digit?_digitChar _ hlt]
    rw [ih]
    have hmod : v % 10 ^ (w + 1) = v % 10 ^ w + 10 ^ w * (v / 10 ^ w % 10) := by
      rw [pow_succ]
      exact Nat.mod_mul
    rw [hmod]
    ring_nf

/-- A fixed-width rendering of an in-range value parses back exactly. -/
theorem parseNatFixed_pad_exact (w v : Nat) (h : v < 10 ^ w) (rest : List Char) :
    parseNatFixed w 0 (padDigits w v ++ rest) = some (v, rest) := by
  rw [parseNatFixed_padDigits, Nat.mod_eq_of_lt h, zero_mul, zero_add]

theorem daysInMonth_le_31 (y m : Nat) : daysInMonth y m ≤ 31 := by
  unfold daysInMonth
  rcases m with _ | _ | _ | _ | _ | _ | _ | _ | _ | _ | _ | _ | _ | m <;>
      simp <;> split_ifs <;> simp

theorem string_data_mk (l : List Char) : (String.mk l).data = l := rfl

theorem option_bind_some {α β : Type u} (a : α) (f : α → Option β) :
    (some a : Option α) >>= f = f a := rfl

theorem expectChar_cons_self (c : Char) (xs : List Char) :
    expectChar c (c :: xs) = some xs := by
  simp [expectChar]

/-- Parsing the canonical microseconds-precision rendering of a valid naive
or UTC datetime recovers exactly its fields: `datetime.fromisoformat` is a
left inverse of `iso_format` on the values this library produces. -/
theorem fromisoformat_iso_format (dt : PyDatetime) (hv : isValid dt = true)
    (htz : dt.tzinfo = none ∨ dt.tzinfo = some 0) :
    fromisoformat (iso_format dt) = some dt := by
  obtain ⟨y, mo, d, h, mi, s, us, tz⟩ := dt
  have hv0 := hv
  unfold isValid at hv
  simp only [Bool.and_eq_true, decide_eq_true_eq] at hv
  have h31 := daysInMonth_le_31 y mo
  have hy : y < 10 ^ 4 := by norm_num; omega
  have hmo : mo < 10 ^ 2 := by norm_num; omega
  have hd : d < 10 ^ 2 := by norm_num; omega
  have hh : h < 10 ^ 2 := by norm_num; omega
  have hmi : mi < 10 ^ 2 := by norm_num; omega
  have hs : s < 10 ^ 2 := by norm_num; omega
  have hus : us < 10 ^ 6 := by norm_num; omega
  have hsuffixN : parseOffset (offsetSuffix none) = some none := rfl
  have hsuffix0 : parseOffset (offsetSuffix (some 0)) = some (some 0) := rfl
  rcases htz with htz | htz <;> subst htz <;>
    · unfold iso_format fromisoformat
      rw [string_data_mk]
      unfold isoFormatList
      simp only [parseIsoList, parseTimeTail, parseFraction,
        parseNatFixed_pad_exact 4 y hy, parseNatFixed_pad_exact 2 mo hmo,
        parseNatFixed_pad_exact 2 d hd, parseNatFixed_pad_exact 2 h hh,
        parseNatFixed_pad_exact 2 mi hmi, parseNatFixed_pad_exact 2 s hs,
        parseNatFixed_pad_exact 6 us hus, expectChar_cons_self,
        hsuffixN, hsuffix0, option_bind_some]
      simp [hv0]

/-- Datetimes that compare equal under Python's `==` hash identically. -/
theorem datetimeEq_hash (a b : PyDatetime) (h : datetimeEq a b = true) :
    pyDatetimeHash a = pyDatetimeHash b := by
  unfold datetimeEq at h
  unfold pyDatetimeHash
  rcases ha : a.tzinfo with _ | x <;> rcases hb : b.tzinfo with _ | y <;>
      (try rw [ha] at h) <;> (try rw [hb] at h) <;> dsimp only at h ⊢
  · exact congrArg toWallMicros (eq_of_beq h)
  · exact absurd h (by decide)
  · exact absurd h (by decide)
  · exact eq_of_beq h

/-- `UTCDatetime.__init__` only ever stores a zero offset. -/
theorem utcInit_ok_tzinfo (dt w : PyDatetime) (h : UTCDatetime.init dt = .ok w) :
    w.tzinfo = some 0 := by
  unfold UTCDatetime.init at h
  rcases hdt : dt.tzinfo with _ | off <;> rw [hdt] at h
  · simp at h
  · simp only [Option.isNone_some, Bool.false_eq_true, if_false, Except.ok.injEq] at h
    subst h
    unfold astimezoneUtc
    rw [hdt]
    by_cases hoff : off = 0
    · subst hoff
      simp [hdt]
    · simp [hoff, fromWallMicros_tzinfo]

/-- `UTCDatetime.__init__` preserves the instant of its (aware) input, for
instants at or after year 1. -/
theorem utcInit_ok_instant (dt w : PyDatetime) (h : UTCDatetime.init dt = .ok w)
    (hx : minWallMicros ≤ instantMicros dt) :
    instantMicros w = instantMicros dt := by
  unfold UTCDatetime.init at h
  rcases hdt : dt.tzinfo with _ | off <;> rw [hdt] at h
  · simp at h
  · simp only [Option.isNone_some, Bool.false_eq_true, if_false, Except.ok.injEq] at h
    subst h
    unfold astimezoneUtc
    rw [hdt]
    by_cases hoff : off = 0
    · simp [hoff]
    · simp only [hoff, if_false]
      unfold instantMicros
      rw [fromWallMicros_tzinfo]
      simp only [Option.getD_some]
      have hxx : minWallMicros ≤ toWallMicros dt - off * 60000000 := by
        unfold instantMicros at hx
        rw [hdt] at hx
        simpa using hx
      rw [toWallMicros_fromWallMicros _ _ hxx]
      rw [hdt]
      simp only [Option.getD_some]
      ring

/-- `UTCDatetime.__init__` rejects exactly the naive datetimes. -/
theorem utcInit_naive_error (dt : PyDatetime) (h : dt.tzinfo = none) :
    UTCDatetime.init dt = .error "UTCDatetime can't be initialised with a naive datetime" := by
  unfold UTCDatetime.init
  rw [h]
  rfl

end Fourth

/-- C1: the claim says `LocalDatetime.__eq__`/`UTCDatetime.__eq__` return the
`NotImplemented` sentinel for the opposite variant and for unrelated types;
the code under src/ instead returns `False` in those cases (its final branch
is `return False`), while the repository's own tests assert
`assertIs(NotImplemented, foo.__eq__(1))` — evaluating the embedded code at
the failing inputs. -/
theorem C1_eq_returns_false_not_sentinel :
    Fourth.LocalDatetime.eq ⟨2020, 1, 1, 0, 0, 0, 0, none⟩
      (.utcDT ⟨2020, 1, 1, 0, 0, 0, 0, some 0⟩) = .bool false ∧
    Fourth.LocalDatetime.eq ⟨2020, 1, 1, 0, 0, 0, 0, none⟩ (.int 1) = .bool false ∧
    Fourth.LocalDatetime.eq ⟨2020, 1, 1, 0, 0, 0, 0, none⟩ (.str "foo") = .bool false ∧
    Fourth.UTCDatetime.eq ⟨2020, 1, 1, 0, 0, 0, 0, some 0⟩
      (.localDT ⟨2020, 1, 1, 0, 0, 0, 0, none⟩) = .bool false ∧
    (Fourth.EqResult.bool false ≠ Fourth.EqResult.notImplemented) :=
  ⟨rfl, rfl, rfl, rfl, by decide⟩

/-- C2 (counterexample): the claim's example says constructing from
`...T19:29:59+04:30` and `...T23:59:59+00:00` yields equal stored values;
they denote different instants (14:59:59 UTC vs 23:59:59 UTC), so the stored
values differ. -/
theorem C2_counterexample :
    Fourth.UTCDatetime.from_iso_format "2020-03-04T19:29:59+04:30" =
      .ok ⟨2020, 3, 4, 14, 59, 59, 0, some 0⟩ ∧
    Fourth.UTCDatetime.from_iso_format "2020-03-04T23:59:59+00:00" =
      .ok ⟨2020, 3, 4, 23, 59, 59, 0, some 0⟩ ∧
    (⟨2020, 3, 4, 14, 59, 59, 0, some 0⟩ : Fourth.PyDatetime) ≠
      ⟨2020, 3, 4, 23, 59, 59, 0, some 0⟩ :=
  ⟨rfl, rfl, by decide⟩

/-- C2 (amended): every `UTCDatetime` construction stores exactly the zero
offset; a non-UTC fixed offset is normalized by an instant-preserving
conversion (for instants at or after year 1); constructing from
`...T19:29:59-04:30` and `...T23:59:59+00:00` (the same instant — the
claim's example with the offset sign corrected) yields equal stored values;
a naive input is rejected. -/
theorem C2_utc_offset_invariant :
    (∀ dt w : Fourth.PyDatetime, Fourth.UTCDatetime.init dt = .ok w →
      w.tzinfo = some 0 ∧
      (Fourth.minWallMicros ≤ Fourth.instantMicros dt →
        Fourth.instantMicros w = Fourth.instantMicros dt)) ∧
    (∀ dt : Fourth.PyDatetime, dt.tzinfo = none →
      Fourth.UTCDatetime.init dt =
        .error "UTCDatetime can't be initialised with a naive datetime") ∧
    Fourth.UTCDatetime.from_iso_format "2020-03-04T19:29:59-04:30" =
      .ok ⟨2020, 3, 4, 23, 59, 59, 0, some 0⟩ ∧
    Fourth.UTCDatetime.from_iso_format "2020-03-04T23:59:59+00:00" =
      .ok ⟨2020, 3, 4, 23, 59, 59, 0, some 0⟩ :=
  ⟨fun dt w h => ⟨Fourth.utcInit_ok_tzinfo dt w h, Fourth.utcInit_ok_instant dt w h⟩,
   Fourth.utcInit_naive_error, rfl, rfl⟩

/-- C2 witness: the amended theorem applied at a concrete aware input with a
non-zero offset. -/
theorem C2_utc_offset_invariant_witness :
    Fourth.UTCDatetime.init ⟨2020, 3, 4, 23, 59, 59, 333444, some 270⟩ =
      .ok ⟨2020, 3, 4, 19, 29, 59, 333444, some 0⟩ ∧
    (⟨2020, 3, 4, 19, 29, 59, 333444, some 0⟩ : Fourth.PyDatetime).tzinfo = some 0 ∧
    Fourth.instantMicros ⟨2020, 3, 4, 19, 29, 59, 333444, some 0⟩ =
      Fourth.instantMicros ⟨2020, 3, 4, 23, 59, 59, 333444, some 270⟩ := by
  have h : Fourth.UTCDatetime.init ⟨2020, 3, 4, 23, 59, 59, 333444, some 270⟩ =
      .ok ⟨2020, 3, 4, 19, 29, 59, 333444, some 0⟩ := rfl
  exact ⟨h, (C2_utc_offset_invariant.1 _ _ h).1,
    (C2_utc_offset_invariant.1 _ _ h).2 (by decide)⟩

/-- C3 (counterexample): the claim's format-symmetry half fails — the string
`2020-03-04T23:59:59.333444+04:30` is valid microseconds-precision ISO text
accepted by `UTCDatetime.from_iso_format`, but re-serialising the parsed
value yields `2020-03-04T19:29:59.333444+00:00` (the offset is normalized to
UTC), not the original text. -/
theorem C3_counterexample :
    Fourth.UTCDatetime.from_iso_format "2020-03-04T23:59:59.333444+04:30" =
      .ok ⟨2020, 3, 4, 19, 29, 59, 333444, some 0⟩ ∧
    Fourth.iso_format ⟨2020, 3, 4, 19, 29, 59, 333444, some 0⟩ =
      "2020-03-04T19:29:59.333444+00:00" ∧
    ("2020-03-04T19:29:59.333444+00:00" : String) ≠
      "2020-03-04T23:59:59.333444+04:30" :=
  ⟨rfl, rfl, by decide⟩

/-- C3 (amended): the round-trip law restricted to the canonical form —
for every valid instance V of either variant,
`from_iso_format(V.iso_format())` recovers exactly V (so it compares equal
to V), and consequently `from_iso_format(T).iso_format() = T` character for
character for every canonical microseconds-precision string T (the
`iso_format` image: `T` separator, `.ffffff` seconds, and a `+00:00` suffix
exactly for the UTC variant). -/
theorem C3_roundtrip_canonical :
    (∀ dt : Fourth.PyDatetime, Fourth.isValid dt = true → dt.tzinfo = none →
      Fourth.LocalDatetime.from_iso_format (Fourth.iso_format dt) = .ok dt) ∧
    (∀ dt : Fourth.PyDatetime, Fourth.isValid dt = true → dt.tzinfo = some 0 →
      Fourth.UTCDatetime.from_iso_format (Fourth.iso_format dt) = .ok dt) ∧
    (∀ dt : Fourth.PyDatetime, Fourth.isValid dt = true → dt.tzinfo = none →
      (Fourth.LocalDatetime.from_iso_format (Fourth.iso_format dt)).map
        Fourth.iso_format = .ok (Fourth.iso_format dt)) ∧
    (∀ dt : Fourth.PyDatetime, Fourth.isValid dt = true → dt.tzinfo = some 0 →
      (Fourth.UTCDatetime.from_iso_format (Fourth.iso_format dt)).map
        Fourth.iso_format = .ok (Fourth.iso_format dt)) := by
  have hlocal : ∀ dt : Fourth.PyDatetime,
      Fourth.isValid dt = true → dt.tzinfo = none →
      Fourth.LocalDatetime.from_iso_format (Fourth.iso_format dt) = .ok dt := by
    intro dt hv htz
    unfold Fourth.LocalDatetime.from_iso_format
    rw [Fourth.fromisoformat_iso_format dt hv (Or.inl htz)]
    simp [htz, Fourth.LocalDatetime.init]
  have hutc : ∀ dt : Fourth.PyDatetime,
      Fourth.isValid dt = true → dt.tzinfo = some 0 →
      Fourth.UTCDatetime.from_iso_format (Fourth.iso_format dt) = .ok dt := by
    intro dt hv htz
    unfold Fourth.UTCDatetime.from_iso_format
    rw [Fourth.fromisoformat_iso_format dt hv (Or.inr htz)]
    simp [htz, Fourth.UTCDatetime.init, Fourth.astimezoneUtc]
  refine ⟨hlocal, hutc, ?_, ?_⟩
  · intro dt hv htz
    rw [hlocal dt hv htz]
    rfl
  · intro dt hv htz
    rw [hutc dt hv htz]
    rfl

/-- C3 witness: the round-trip applied at concrete valid values of both
variants. -/
theorem C3_roundtrip_canonical_witness :
    Fourth.isValid ⟨1994, 12, 1, 2, 45, 3, 40507, none⟩ = true ∧
    Fourth.LocalDatetime.from_iso_format
        (Fourth.iso_format ⟨1994, 12, 1, 2, 45, 3, 40507, none⟩) =
      .ok ⟨1994, 12, 1, 2, 45, 3, 40507, none⟩ ∧
    Fourth.UTCDatetime.from_iso_format
        (Fourth.iso_format ⟨1994, 12, 1, 2, 45, 3, 40507, some 0⟩) =
      .ok ⟨1994, 12, 1, 2, 45, 3, 40507, some 0⟩ :=
  ⟨by decide,
   C3_roundtrip_canonical.1 _ (by decide) rfl,
   C3_roundtrip_canonical.2.1 _ (by decide) rfl⟩

/-- C4: hashing is consistent with equality — whenever the embedded
`__eq__` of either variant answers `True` (against a wrapper instance or a
native datetime), the hashes agree. Every instance is hashable (the hash is
a total function of the value). -/
theorem C4_hash_consistent_with_eq :
    (∀ (v : Fourth.PyDatetime) (o : Fourth.PyValue),
      Fourth.LocalDatetime.eq v o = .bool true →
      Fourth.wrapperHash v = Fourth.pyValueHash o) ∧
    (∀ (v : Fourth.PyDatetime) (o : Fourth.PyValue),
      Fourth.UTCDatetime.eq v o = .bool true →
      Fourth.wrapperHash v = Fourth.pyValueHash o) := by
  constructor
  · intro v o h
    cases o <;>
      simp only [Fourth.LocalDatetime.eq, Fourth.EqResult.bool.injEq] at h
    case localDT o =>
      exact (Fourth.datetimeEq_hash o v h).symm
    case native o =>
      rw [Bool.and_eq_true] at h
      exact (Fourth.datetimeEq_hash o v h.2).symm
    all_goals cases h
  · intro v o h
    cases o <;>
      simp only [Fourth.UTCDatetime.eq, Fourth.EqResult.bool.injEq] at h
    case utcDT o =>
      exact (Fourth.datetimeEq_hash o v h).symm
    case native o =>
      rw [Bool.and_eq_true] at h
      exact (Fourth.datetimeEq_hash o v h.2).symm
    all_goals cases h

/-- C4 witness: a `UTCDatetime` and an aware native datetime with a
different fixed offset compare equal and hash identically. -/
theorem C4_hash_consistent_with_eq_witness :
    Fourth.UTCDatetime.eq ⟨2026, 3, 22, 12, 1, 5, 0, some 0⟩
      (.native ⟨2026, 3, 22, 17, 1, 5, 0, some 300⟩) = .bool true ∧
    Fourth.wrapperHash ⟨2026, 3, 22, 12, 1, 5, 0, some 0⟩ =
      Fourth.pyValueHash (.native ⟨2026, 3, 22, 17, 1, 5, 0, some 300⟩) :=
  ⟨by decide, C4_hash_consistent_with_eq.2 _ _ (by decide)⟩

/-- C5: `__setattr__` and `__delattr__` raise an `AttributeError` of the
shape `'<TypeName>' object has no attribute '<name>'` for every attribute
name (including `_at`), on both variants; they never return a modified
instance (no `.ok` outcome exists), so the stored timestamp and every field
accessor are unchanged. -/
theorem C5_immutability :
    ∀ (self : Fourth.PyDatetime) (name : String) (value : Fourth.PyValue),
      Fourth.BaseDatetime.setattr "LocalDatetime" self name value =
        .error ("'LocalDatetime' object has no attribute '" ++ name ++ "'") ∧
      Fourth.BaseDatetime.delattr "LocalDatetime" self name =
        .error ("'LocalDatetime' object has no attribute '" ++ name ++ "'") ∧
      Fourth.BaseDatetime.setattr "UTCDatetime" self name value =
        .error ("'UTCDatetime' object has no attribute '" ++ name ++ "'") ∧
      Fourth.BaseDatetime.delattr "UTCDatetime" self name =
        .error ("'UTCDatetime' object has no attribute '" ++ name ++ "'") :=
  fun _ _ _ => ⟨rfl, rfl, rfl, rfl⟩

/-- C6: the parse constructors raise the tz-info `ValueError` exactly when
the parsed text's offset-presence contradicts the variant's invariant:
`LocalDatetime.from_iso_format` says "contained tz info" iff the parsed
datetime carries an offset, `UTCDatetime.from_iso_format` says "didn't
contain tz info" iff it carries none, and the non-raising cases return a
wrapped instance holding the parsed value (normalized to UTC for the aware
variant, preserving the instant).  The `strptime` constructors perform the
same check on the host parser's result. -/
theorem C6_parse_tz_errors :
    (∀ (s : String) (dtm : Fourth.PyDatetime), Fourth.fromisoformat s = some dtm →
      (Fourth.LocalDatetime.from_iso_format s =
          .error "fromisoformat: date_string contained tz info" ↔
        dtm.tzinfo.isSome = true) ∧
      (dtm.tzinfo = none → Fourth.LocalDatetime.from_iso_format s = .ok dtm) ∧
      (Fourth.UTCDatetime.from_iso_format s =
          .error "fromisoformat: date_string didn't contain tz info" ↔
        dtm.tzinfo = none) ∧
      (dtm.tzinfo.isSome = true →
        Fourth.UTCDatetime.from_iso_format s = .ok (Fourth.astimezoneUtc dtm)) ∧
      (dtm.tzinfo.isSome = true → Fourth.minWallMicros ≤ Fourth.instantMicros dtm →
        Fourth.instantMicros (Fourth.astimezoneUtc dtm) = Fourth.instantMicros dtm)) ∧
    (∀ dtm : Fourth.PyDatetime,
      (Fourth.LocalDatetime.strptimeCheck dtm =
          .error "strptime: date_string contained tz info" ↔
        dtm.tzinfo.isSome = true) ∧
      (Fourth.UTCDatetime.strptimeCheck dtm =
          .error "strptime: date_string didn't contain tz info" ↔
        dtm.tzinfo = none)) := by
  constructor
  · intro s dtm hparse
    refine ⟨?_, ?_, ?_, ?_, ?_⟩
    · unfold Fourth.LocalDatetime.from_iso_format
      rw [hparse]
      rcases htz : dtm.tzinfo with _ | off <;>
        simp [htz, Fourth.LocalDatetime.init]
    · intro htz
      unfold Fourth.LocalDatetime.from_iso_format
      rw [hparse]
      simp [htz, Fourth.LocalDatetime.init]
    · unfold Fourth.UTCDatetime.from_iso_format
      rw [hparse]
      rcases htz : dtm.tzinfo with _ | off <;>
        simp [htz, Fourth.UTCDatetime.init]
    · intro htz
      unfold Fourth.UTCDatetime.from_iso_format
      rw [hparse]
      rcases hcase : dtm.tzinfo with _ | off
      · rw [hcase] at htz
        simp at htz
      · simp [hcase, Fourth.UTCDatetime.init, htz]
    · intro htz hx
      have : Fourth.UTCDatetime.init dtm = .ok (Fourth.astimezoneUtc dtm) := by
        unfold Fourth.UTCDatetime.init
        rcases hcase : dtm.tzinfo with _ | off
        · rw [hcase] at htz
          simp at htz
        · simp [hcase]
      exact Fourth.utcInit_ok_instant dtm _ this hx
  · intro dtm
    constructor
    · unfold Fourth.LocalDatetime.strptimeCheck
      rcases htz : dtm.tzinfo with _ | off <;>
        simp [htz, Fourth.LocalDatetime.init]
    · unfold Fourth.UTCDatetime.strptimeCheck
      rcases htz : dtm.tzinfo with _ | off <;>
        simp [htz, Fourth.UTCDatetime.init]

/-- C6 witness: the theorem applied to a concrete aware ISO string (accepted
by the UTC variant, rejected by the naive variant) discharging every
hypothesis. -/
theorem C6_parse_tz_errors_witness :
    Fourth.fromisoformat "2020-03-04T23:59:59.333444+04:30" =
      some ⟨2020, 3, 4, 23, 59, 59, 333444, some 270⟩ ∧
    Fourth.LocalDatetime.from_iso_format "2020-03-04T23:59:59.333444+04:30" =
      .error "fromisoformat: date_string contained tz info" ∧
    Fourth.UTCDatetime.from_iso_format "2020-03-04T23:59:59.333444+04:30" =
      .ok (Fourth.astimezoneUtc ⟨2020, 3, 4, 23, 59, 59, 333444, some 270⟩) := by
  have hp : Fourth.fromisoformat "2020-03-04T23:59:59.333444+04:30" =
      some ⟨2020, 3, 4, 23, 59, 59, 333444, some 270⟩ := rfl
  refine ⟨hp, ?_, ?_⟩
  · exact ((C6_parse_tz_errors.1 _ _ hp).1).mpr (by decide)
  · exact (C6_parse_tz_errors.1 _ _ hp).2.2.2.1 (by decide)

/-- C7: adding a `timedelta` to either variant yields a new value of the same
variant (the tzinfo is preserved) whose wall clock is shifted by exactly the
duration (for results at or after year 1); `__radd__` performs the same
addition, so duration + value equals value + duration; and the spec's
concrete scenario `UTCDatetime.at(2020,9,5) + timedelta(hours=-18) ==
UTCDatetime.at(2020,9,4,6,0,0)` holds. -/
theorem C7_duration_arithmetic :
    (∀ (v : Fourth.PyDatetime) (u : Int),
      Fourth.minWallMicros ≤ Fourth.toWallMicros v + u →
      Fourth.LocalDatetime.add v (.timedelta u) = .value (Fourth.addDuration v u) ∧
      Fourth.UTCDatetime.add v (.timedelta u) = .value (Fourth.addDuration v u) ∧
      Fourth.toWallMicros (Fourth.addDuration v u) = Fourth.toWallMicros v + u ∧
      (Fourth.addDuration v u).tzinfo = v.tzinfo) ∧
    (∀ (v : Fourth.PyDatetime) (o : Fourth.PyValue),
      Fourth.LocalDatetime.radd v o = Fourth.LocalDatetime.add v o ∧
      Fourth.UTCDatetime.radd v o = Fourth.UTCDatetime.add v o) ∧
    Fourth.UTCDatetime.atC 2020 9 5 = .ok ⟨2020, 9, 5, 0, 0, 0, 0, some 0⟩ ∧
    Fourth.UTCDatetime.add ⟨2020, 9, 5, 0, 0, 0, 0, some 0⟩
      (.timedelta (-64800000000)) = .value ⟨2020, 9, 4, 6, 0, 0, 0, some 0⟩ ∧
    Fourth.UTCDatetime.atC 2020 9 4 6 = .ok ⟨2020, 9, 4, 6, 0, 0, 0, some 0⟩ := by
  refine ⟨?_, fun v o => ⟨rfl, rfl⟩, rfl, rfl, rfl⟩
  intro v u hx
  refine ⟨rfl, rfl, ?_, Fourth.fromWallMicros_tzinfo _ _⟩
  exact Fourth.toWallMicros_fromWallMicros _ _ hx

/-- C7 witness: the shift law applied at the scenario's concrete input. -/
theorem C7_duration_arithmetic_witness :
    Fourth.minWallMicros ≤
      Fourth.toWallMicros ⟨2020, 9, 5, 0, 0, 0, 0, some 0⟩ + (-64800000000) ∧
    Fourth.toWallMicros
        (Fourth.addDuration ⟨2020, 9, 5, 0, 0, 0, 0, some 0⟩ (-64800000000)) =
      Fourth.toWallMicros ⟨2020, 9, 5, 0, 0, 0, 0, some 0⟩ + (-64800000000) :=
  ⟨by decide,
   (C7_duration_arithmetic.1 ⟨2020, 9, 5, 0, 0, 0, 0, some 0⟩ (-64800000000)
      (by decide)).2.2.1⟩

/-- C8: the naive variant's `strftime` raises exactly when the format string
contains a live timezone directive — a `%z`/`%Z` whose own percent sign is
preceded by an even number (including zero) of `%` characters, i.e. a
`z`/`Z` preceded by an odd-length run of `%` — and renders the format
otherwise; in particular `strftime("%Y-%m-%d %z")` raises for every value
while `strftime("%Y-%m-%d %%z")` on `LocalDatetime.at(2030,4,5)` yields the
literal text `"2030-04-05 %z"`. -/
theorem C8_strftime_tz_rejection :
    (∀ (v : Fourth.PyDatetime) (f : String),
      Fourth.LocalDatetime.strftime v f =
          .error "format string for LocalDatetime.strftime() must not contain timezone directives" ↔
        Fourth.hasTzDirective f.data 0 = true) ∧
    (∀ v : Fourth.PyDatetime,
      Fourth.LocalDatetime.strftime v "%Y-%m-%d %z" =
        .error "format string for LocalDatetime.strftime() must not contain timezone directives") ∧
    Fourth.LocalDatetime.strftime ⟨2030, 4, 5, 0, 0, 0, 0, none⟩ "%Y-%m-%d %%z" =
      .ok "2030-04-05 %z" ∧
    Fourth.LocalDatetime.strftime ⟨2030, 4, 5, 0, 0, 0, 0, none⟩ "%Y-%m-%d %%%z" =
      .error "format string for LocalDatetime.strftime() must not contain timezone directives" ∧
    Fourth.LocalDatetime.strftime ⟨2030, 4, 5, 0, 0, 0, 0, none⟩ "%Y-%m-%d %%%%Z" =
      .ok "2030-04-05 %%Z" := by
  refine ⟨?_, fun v => rfl, rfl, rfl, rfl⟩
  intro v f
  unfold Fourth.LocalDatetime.strftime
  by_cases h : Fourth.hasTzDirective f.data 0 <;> simp [h]

/-- C10: `as_datetime` exposes the wrapped value faithfully — a
`LocalDatetime` built by `at(...)` wraps a native datetime with exactly the
constructor's fields and no tzinfo; a `UTCDatetime` built by `at(...)` wraps
one with exactly those fields and the zero UTC offset; and every
`UTCDatetime` construction wraps a value whose tzinfo is the UTC offset. -/
theorem C10_as_datetime_faithful :
    (∀ y mo d h mi s us (w : Fourth.PyDatetime),
      Fourth.isValid ⟨y, mo, d, h, mi, s, us, none⟩ = true →
      Fourth.LocalDatetime.atC y mo d h mi s us = .ok w →
      Fourth.as_datetime w = ⟨y, mo, d, h, mi, s, us, none⟩) ∧
    (∀ y mo d h mi s us (w : Fourth.PyDatetime),
      Fourth.isValid ⟨y, mo, d, h, mi, s, us, some 0⟩ = true →
      Fourth.UTCDatetime.atC y mo d h mi s us = .ok w →
      Fourth.as_datetime w = ⟨y, mo, d, h, mi, s, us, some 0⟩) ∧
    (∀ dt w : Fourth.PyDatetime, Fourth.UTCDatetime.init dt = .ok w →
      (Fourth.as_datetime w).tzinfo = some 0) := by
  refine ⟨?_, ?_, fun dt w h => Fourth.utcInit_ok_tzinfo dt w h⟩
  · intro y mo d h mi s us w hv hat
    unfold Fourth.LocalDatetime.atC Fourth.mkDatetime at hat
    simp only [hv, if_true] at hat
    simp [Fourth.LocalDatetime.init, Bind.bind, Except.bind] at hat
    exact hat.symm
  · intro y mo d h mi s us w hv hat
    unfold Fourth.UTCDatetime.atC Fourth.mkDatetime at hat
    simp only [hv, if_true] at hat
    simp [Fourth.UTCDatetime.init, Fourth.astimezoneUtc, Bind.bind, Except.bind] at hat
    exact hat.symm

/-- C10 witness: both constructors applied at concrete valid fields. -/
theorem C10_as_datetime_faithful_witness :
    Fourth.isValid ⟨2020, 1, 1, 22, 33, 52, 333444, none⟩ = true ∧
    Fourth.as_datetime ⟨2020, 1, 1, 22, 33, 52, 333444, none⟩ =
      ⟨2020, 1, 1, 22, 33, 52, 333444, none⟩ ∧
    Fourth.as_datetime ⟨2020, 1, 1, 22, 33, 52, 333444, some 0⟩ =
      ⟨2020, 1, 1, 22, 33, 52, 333444, some 0⟩ := by
  refine ⟨by decide, ?_, ?_⟩
  · exact C10_as_datetime_faithful.1 2020 1 1 22 33 52 333444 _ (by decide) rfl
  · exact C10_as_datetime_faithful.2.1 2020 1 1 22 33 52 333444 _ (by decide) rfl

/-- C9: calling the abstract constructor hook `at(...)` on the base type
fails with a "not implemented" error naming the operation, for every
argument tuple. -/
theorem C9_base_at_not_implemented :
    ∀ year month day hour minute second microsecond : Nat,
      Fourth.BaseDatetime.atHook year month day hour minute second microsecond =
        .error "NotImplementedError: BaseDatetime does not implement at()" :=
  fun _ _ _ _ _ _ _ => rfl
